import Mathlib

/-!
Shallow embedding of `src/controllers/voice_api.py` — the single token-issuing
operation `VoiceController.get_token` of the LiveKit voice-agent Odoo module.

Modelling conventions:
* Python strings are Lean `String`; Python truthiness of a string is `s ≠ ""`
  (`pyOr` models Python `a or b` on strings).
* `os.getenv` returns `Option String` (`none` = variable unset); the Odoo
  configuration store `ir.config_parameter.get_param(key, '')` returns a plain
  `String` (the stored value, or the default `""`).
* The authenticated user supplies `login`, `name` (strings, `""` for falsy)
  and a numeric `id` (Python-truthy iff nonzero).
* The LiveKit SDK is external: the runtime `from livekit import api` is
  modelled by `sdkImport : Option String` (`some e` = ImportError with message
  `e`), and the chained `AccessToken(...).with_identity(...).with_grants(...)
  .to_jwt()` by a signing capability
  `sign : String → String → String → VideoGrants → Except String String`
  (api_key, api_secret, identity, grants ↦ token or raised-exception message).
* Python exceptions become `Except`/structured results: the surrounding
  `try/except` returns `{'error': str(e)}`, so the embedding's result type
  `Response` has exactly an error constructor (a payload with only an `error`
  field and in particular no token field) and a success constructor carrying
  exactly the five fields of the success dict.
* To state "performs no signing call" / "the grant passed to the signing
  primitive", `get_token` also returns the trace of calls made to `sign`.
-/

namespace VoiceApi

/-- Python `a or b` on strings: `b` when `a` is falsy (empty), else `a`. -/
def pyOr (a b : String) : String := if a = "" then b else a

/-- Characters removed by Python `str.strip()` (ASCII whitespace). -/
def pyWhitespace (c : Char) : Bool :=
  c == ' ' || c == '\t' || c == '\n' || c == '\r' || c == Char.ofNat 11 || c == Char.ofNat 12

/-- Python `s.strip()`: drop leading and trailing whitespace. -/
def pyStrip (s : String) : String :=
  ⟨((s.data.dropWhile pyWhitespace).reverse.dropWhile pyWhitespace).reverse⟩

/-- Python `s.rstrip('/')` as used on the service URL: drop trailing slashes. -/
def pyRstripSlash (s : String) : String :=
  ⟨((s.data.reverse).dropWhile (fun c => c == '/')).reverse⟩

/-- `identity.replace(' ', '_')`: each space becomes an underscore. -/
def replaceSpaces (l : List Char) : List Char :=
  l.map fun c => if c = ' ' then '_' else c

/-- `identity.replace('@', '_at_')`: each at-sign becomes `_at_`. -/
def replaceAt (l : List Char) : List Char :=
  l.flatMap fun c => if c = '@' then "_at_".data else [c]

/-- The character class kept by `re.sub(r'[^a-zA-Z0-9_\-.]', '', identity)`. -/
def allowedChar (c : Char) : Bool :=
  c.isAlpha || c.isDigit || c == '_' || c == '-' || c == '.'

/-- The regex substitution: delete every character outside the allowed class. -/
def stripDisallowed (l : List Char) : List Char :=
  l.filter allowedChar

/-- The sanitization pipeline applied to the chosen raw identity:
`identity.strip().replace(' ', '_').replace('@', '_at_')` followed by the
regex deletion of remaining disallowed characters. -/
def sanitize_identity (s : String) : String :=
  ⟨stripDisallowed (replaceAt (replaceSpaces (pyStrip s).data))⟩

/-- The authenticated caller context (`request.env.user`). -/
structure UserCtx where
  login : String
  name : String
  id : Nat

/-- `f"user_{user.id}" if user.id else "anonymous"` — the empty-identity fallback. -/
def fallback_identity (uid : Nat) : String :=
  if uid ≠ 0 then "user_" ++ toString uid else "anonymous"

/-- `user.login or user.name or f"user_{user.id}" or "anonymous"`. -/
def raw_identity (u : UserCtx) : String :=
  pyOr u.login (pyOr u.name (pyOr ("user_" ++ toString u.id) "anonymous"))

/-- `if not identity or not identity.strip(): identity = ...fallback...`. -/
def pre_identity (u : UserCtx) : String :=
  let identity := raw_identity u
  if identity = "" || pyStrip identity = "" then fallback_identity u.id else identity

/-- The full identity resolution of `get_token`: raw chain, whitespace-only
fallback, sanitization, and the final empty-after-sanitization fallback. -/
def resolve_identity (u : UserCtx) : String :=
  let identity := sanitize_identity (pre_identity u)
  if identity = "" then fallback_identity u.id else identity

/-- The static `agent_prompts` dict of `get_token`. -/
def agent_prompts : List (String × String) :=
  [("customer_support", "You are a helpful customer support agent. Assist users with their questions and issues in a friendly and professional manner."),
   ("accounting", "You are an accounting assistant. Help users with financial questions, accounting principles, and bookkeeping tasks."),
   ("general", "You are a helpful AI assistant. Answer questions and provide assistance on various topics.")]

/-- Python `agent_id in agent_prompts` (dict-key membership). -/
def agent_known (a : String) : Bool :=
  (agent_prompts.lookup a).isSome

/-- `if not agent_id or agent_id not in agent_prompts: agent_id = 'general'`. -/
def resolve_agent (a : Option String) : String :=
  match a with
  | none => "general"
  | some s => if s = "" || !agent_known s then "general" else s

/-- `agent_prompts[agent_id]` — total because it is only evaluated after
`resolve_agent`, whose result is always a dict key. -/
def agent_prompt (a : String) : String :=
  (agent_prompts.lookup a).getD ""

/-- `room_name = f"voice_chat_{agent_id}"`. -/
def room_name (agent : String) : String :=
  "voice_chat_" ++ agent

/-- The three LiveKit environment variables (`none` = unset). -/
structure EnvVars where
  url : Option String
  api_key : Option String
  api_secret : Option String

/-- The three `ir.config_parameter` values, with the `''` default applied. -/
structure ConfigStore where
  url : String
  api_key : String
  api_secret : String

/-- `os.getenv(X) or get_param(key, '')`: the env value when set and
non-empty (Python truthiness), otherwise the store value. -/
def resolve_cred (env : Option String) (store : String) : String :=
  match env with
  | none => store
  | some v => if v = "" then store else v

/-- The grant object built by `api.VideoGrants(...)`. -/
structure VideoGrants where
  room_join : Bool
  can_publish : Bool
  can_subscribe : Bool
  room : String
deriving DecidableEq, Repr

/-- One invocation of the signing primitive, with the arguments passed. -/
structure SignCall where
  api_key : String
  api_secret : String
  identity : String
  grants : VideoGrants
deriving DecidableEq, Repr

/-- The JSON result of `get_token`: either `{'error': msg}` (no token field)
or the success dict with exactly the five keys
`{'room', 'token', 'url', 'agent_id', 'prompt'}` (the spec's
`TokenResponse{room, token, serviceURL, agentId, prompt}`). -/
inductive Response where
  | err (msg : String)
  | ok (room token url agent_id prompt : String)
deriving DecidableEq, Repr

/-- The missing-credentials error message of `get_token`. -/
def config_error_msg : String :=
  "LiveKit not configured. Please set LIVEKIT_URL, LIVEKIT_API_KEY, and LIVEKIT_API_SECRET environment variables or system parameters."

/-- The runtime-ImportError error message of `get_token`. -/
def sdk_error_msg (e : String) : String :=
  "LiveKit SDK not available. Import error: " ++ e ++ ". Please ensure livekit is installed in the Odoo Python environment: pip install livekit --break-system-packages"

/-- The one signing call `get_token` makes when it reaches token construction. -/
def the_call (env : EnvVars) (store : ConfigStore) (u : UserCtx) (agent_id : Option String) :
    SignCall :=
  { api_key := resolve_cred env.api_key store.api_key
    api_secret := resolve_cred env.api_secret store.api_secret
    identity := resolve_identity u
    grants := { room_join := true, can_publish := true, can_subscribe := true
                room := room_name (resolve_agent agent_id) } }

/-- `VoiceController.get_token`, with the trace of signing calls it performed.
Mirrors the source: resolve credentials (env first, then store), reject when
any is empty, resolve agent and room, resolve and sanitize identity, runtime
SDK import, build the grant, sign, and assemble the success dict; the outer
`try/except` turns any raised error into an `{'error': msg}` payload. -/
def get_token (env : EnvVars) (store : ConfigStore) (u : UserCtx) (agent_id : Option String)
    (sdkImport : Option String)
    (sign : String → String → String → VideoGrants → Except String String) :
    Response × List SignCall :=
  let livekit_url := resolve_cred env.url store.url
  let livekit_api_key := resolve_cred env.api_key store.api_key
  let livekit_api_secret := resolve_cred env.api_secret store.api_secret
  if livekit_url = "" || livekit_api_key = "" || livekit_api_secret = "" then
    (.err config_error_msg, [])
  else
    let agent := resolve_agent agent_id
    let room := room_name agent
    let identity := resolve_identity u
    match sdkImport with
    | some e => (.err (sdk_error_msg e), [])
    | none =>
      let grants : VideoGrants :=
        { room_join := true, can_publish := true, can_subscribe := true, room := room }
      let call : SignCall :=
        { api_key := livekit_api_key, api_secret := livekit_api_secret
          identity := identity, grants := grants }
      match sign livekit_api_key livekit_api_secret identity grants with
      | .error e => (.err e, [call])
      | .ok token =>
        (.ok room token (pyRstripSlash livekit_url) agent (agent_prompt agent), [call])

/-- A credential source pair that is empty/missing on both sides: the env
variable unset or set to the empty string, and the store value empty. -/
def cred_empty (env : Option String) (store : String) : Prop :=
  (env = none ∨ env = some "") ∧ store = ""

/-- Substring test used to state that an error message names a setting. -/
def leadsWith : List Char → List Char → Bool
  | [], _ => true
  | _ :: _, [] => false
  | a :: as, b :: bs => a == b && leadsWith as bs

/-- `containsSeq pat l` holds when `pat` occurs contiguously inside `l`. -/
def containsSeq (pat : List Char) : List Char → Bool
  | [] => leadsWith pat []
  | l@(_ :: rest) => leadsWith pat l || containsSeq pat rest

/-- `mentions s t`: string `t` occurs as a substring of `s`. -/
def mentions (s t : String) : Bool :=
  containsSeq t.data s.data

/-- Whether a string ends in a slash (for the trailing-slash-stripped URL). -/
def endsWithSlash (s : String) : Bool :=
  s.data.getLast? == some '/'

/-- The three resolved credentials are all non-empty (Python
`all([livekit_url, livekit_api_key, livekit_api_secret])`). -/
def creds_present (env : EnvVars) (store : ConfigStore) : Prop :=
  resolve_cred env.url store.url ≠ "" ∧
  resolve_cred env.api_key store.api_key ≠ "" ∧
  resolve_cred env.api_secret store.api_secret ≠ ""

instance (env : EnvVars) (store : ConfigStore) : Decidable (creds_present env store) :=
  inferInstanceAs (Decidable (_ ∧ _ ∧ _))

/-- The signing primitive applied to exactly the arguments `get_token` passes. -/
def run_sign (env : EnvVars) (store : ConfigStore) (u : UserCtx) (agent_id : Option String)
    (sign : String → String → String → VideoGrants → Except String String) :
    Except String String :=
  sign (the_call env store u agent_id).api_key (the_call env store u agent_id).api_secret
    (the_call env store u agent_id).identity (the_call env store u agent_id).grants

/- Sample concrete inputs used to instantiate theorems with hypotheses. -/

/-- A sample environment carrying all three credentials. -/
def sampleEnv : EnvVars :=
  { url := some "wss://lk.example.com/", api_key := some "key", api_secret := some "secret" }

/-- A sample empty configuration store. -/
def sampleStore : ConfigStore := { url := "", api_key := "", api_secret := "" }

/-- A sample authenticated user. -/
def sampleUser : UserCtx := { login := "john.doe@example.com", name := "", id := 3 }

/-- A sample signing capability that always succeeds. -/
def sampleSign : String → String → String → VideoGrants → Except String String :=
  fun _ _ _ _ => .ok "jwt"

/-- A sample signing capability that always raises. -/
def sampleSignFail : String → String → String → VideoGrants → Except String String :=
  fun _ _ _ _ => .error "boom"

/- Helper lemmas. -/

/-- A credential empty on both sides resolves to the empty string. -/
lemma cred_empty_resolve {e : Option String} {s : String} (h : cred_empty e s) :
    resolve_cred e s = "" := by
  rcases h with ⟨he, hs⟩
  rcases he with rfl | rfl <;> simp [resolve_cred, hs]

/-- The synthetic `user_{id}` identity is never the empty string. -/
lemma user_prefixed_ne (s : String) : "user_" ++ s ≠ "" := by
  obtain ⟨l⟩ := s
  intro h
  have := congrArg String.data h
  simp [String.append] at this

/-- The final identity fallback is never the empty string. -/
lemma fallback_identity_ne (uid : Nat) : fallback_identity uid ≠ "" := by
  unfold fallback_identity
  split
  · exact user_prefixed_ne _
  · intro h
    have := congrArg String.data h
    simp at this

/-- Every character surviving sanitization lies in the allowed class. -/
lemma sanitize_allowed (s : String) :
    ∀ c ∈ (sanitize_identity s).data, allowedChar c = true := by
  intro c hc
  have : c ∈ stripDisallowed (replaceAt (replaceSpaces (pyStrip s).data)) := hc
  exact (List.mem_filter.mp this).2

/-- The head of a list after dropping leading slashes is not a slash. -/
lemma head_dropSlash (m : List Char) (c : Char)
    (h : (m.dropWhile (fun c => c == '/')).head? = some c) : (c == '/') = false := by
  induction m with
  | nil => simp [List.dropWhile] at h
  | cons a rest ih =>
    rw [List.dropWhile_cons] at h
    by_cases ha : (a == '/') = true
    · rw [if_pos ha] at h
      exact ih h
    · rw [if_neg ha] at h
      simp at h
      subst h
      simpa using ha

/-- Stripping trailing slashes leaves no trailing slash. -/
lemma pyRstripSlash_no_trailing (s : String) : endsWithSlash (pyRstripSlash s) = false := by
  unfold endsWithSlash pyRstripSlash
  rcases hh : ((s.data.reverse).dropWhile (fun c => c == '/')).head? with _ | ⟨c⟩
  · simp [List.getLast?_reverse, hh]
  · have hc := head_dropSlash _ _ hh
    simp [List.getLast?_reverse, hh]
    intro h
    subst h
    simp at hc

/-- C1: whenever any of the three credentials is empty/missing from both the
environment and the configuration store, `get_token` returns the structured
configuration-error payload (the `err` constructor carries only the message,
so no token field is present), performs no signing call (empty trace), and
the message names the three required settings. -/
theorem missing_credentials_error (env : EnvVars) (store : ConfigStore) (u : UserCtx)
    (agent_id : Option String) (sdkImport : Option String)
    (sign : String → String → String → VideoGrants → Except String String)
    (h : cred_empty env.url store.url ∨ cred_empty env.api_key store.api_key ∨
      cred_empty env.api_secret store.api_secret) :
    get_token env store u agent_id sdkImport sign = (.err config_error_msg, []) ∧
    mentions config_error_msg "LIVEKIT_URL" = true ∧
    mentions config_error_msg "LIVEKIT_API_KEY" = true ∧
    mentions config_error_msg "LIVEKIT_API_SECRET" = true := by
  refine ⟨?_, by decide, by decide, by decide⟩
  rcases h with h | h | h <;>
    simp [get_token, cred_empty_resolve h]

/-- C1 witness: all three credentials absent everywhere yields the
configuration error and no signing call. -/
theorem missing_credentials_error_witness :
    get_token ⟨none, none, none⟩ sampleStore sampleUser none none sampleSign =
      (.err config_error_msg, []) ∧
    mentions config_error_msg "LIVEKIT_URL" = true ∧
    mentions config_error_msg "LIVEKIT_API_KEY" = true ∧
    mentions config_error_msg "LIVEKIT_API_SECRET" = true :=
  missing_credentials_error ⟨none, none, none⟩ sampleStore sampleUser none none sampleSign
    (Or.inl ⟨Or.inl rfl, rfl⟩)

/-- C2: sanitization keeps only characters of the class `[A-Za-z0-9_.-]`
(spaces having become `_` and `@` having become `_at_` first); if it yields
the empty string the identity falls back to `user_{id}` (nonzero id) or
`"anonymous"`; the resolved identity is never empty; and
`"john.doe@example.com"` sanitizes to `"john.doe_at_example.com"`. -/
theorem identity_sanitization (s : String) (u : UserCtx) :
    (∀ c ∈ (sanitize_identity s).data, allowedChar c = true) ∧
    (sanitize_identity (pre_identity u) = "" → resolve_identity u = fallback_identity u.id) ∧
    resolve_identity u ≠ "" ∧
    sanitize_identity "john.doe@example.com" = "john.doe_at_example.com" ∧
    sanitize_identity "  John Doe  " = "John_Doe" := by
  refine ⟨sanitize_allowed s, ?_, ?_, by decide, by decide⟩
  · intro h
    simp [resolve_identity, h]
  · unfold resolve_identity
    by_cases h : sanitize_identity (pre_identity u) = ""
    · simp [h, fallback_identity_ne]
    · simp [h]

/-- C2 witness: a concrete whitespace-only login falls back to a non-empty
identity, and the example identity sanitizes as specified. -/
theorem identity_sanitization_witness :
    resolve_identity ⟨" ", "", 0⟩ ≠ "" ∧
    sanitize_identity "john.doe@example.com" = "john.doe_at_example.com" :=
  ⟨(identity_sanitization "x" ⟨" ", "", 0⟩).2.2.1,
   (identity_sanitization "x" ⟨" ", "", 0⟩).2.2.2.1⟩

/-- C3: every failure of `get_token` — missing configuration, a failed
SDK import, or a signing error (the outer `try/except` catch-all) — is
returned as a structured error payload carrying only the message, and a
successful-looking response (the `ok` constructor, the only one with a token
field) arises only when configuration is present, the SDK imported, and the
signing call succeeded with exactly that token. -/
theorem errors_structured (env : EnvVars) (store : ConfigStore) (u : UserCtx)
    (agent_id : Option String) (sdkImport : Option String)
    (sign : String → String → String → VideoGrants → Except String String) :
    (resolve_cred env.url store.url = "" ∨ resolve_cred env.api_key store.api_key = "" ∨
        resolve_cred env.api_secret store.api_secret = "" →
      get_token env store u agent_id sdkImport sign = (.err config_error_msg, [])) ∧
    (∀ e, creds_present env store → sdkImport = some e →
      get_token env store u agent_id sdkImport sign = (.err (sdk_error_msg e), [])) ∧
    (∀ e, creds_present env store → sdkImport = none →
      run_sign env store u agent_id sign = .error e →
      get_token env store u agent_id sdkImport sign =
        (.err e, [the_call env store u agent_id])) ∧
    (∀ r t url a p, (get_token env store u agent_id sdkImport sign).1 = .ok r t url a p →
      creds_present env store ∧ sdkImport = none ∧
        run_sign env store u agent_id sign = .ok t) := by
  refine ⟨?_, ?_, ?_, ?_⟩
  · intro h
    rcases h with h | h | h <;> simp [get_token, h]
  · intro e hp he
    subst he
    simp [get_token, hp.1, hp.2.1, hp.2.2]
  · intro e hp him hs
    subst him
    simp only [run_sign, the_call, room_name] at hs
    simp [get_token, hp.1, hp.2.1, hp.2.2, the_call, room_name, hs]
  · intro r t url a p h
    simp only [get_token] at h
    split at h
    · simp at h
    · next hcond =>
      simp only [Bool.or_eq_true, decide_eq_true_eq] at hcond
      push_neg at hcond
      have hp : creds_present env store :=
        ⟨hcond.1.1, hcond.1.2, hcond.2⟩
      split at h
      · simp at h
      · next him =>
        split at h
        · next e hs => simp at h
        · next tok hs =>
          simp only [Response.ok.injEq] at h
          refine ⟨hp, rfl, ?_⟩
          simp only [run_sign, the_call]
          rw [hs, h.2.1]

/-- C3 witness: a signing failure at concrete inputs is returned as the
structured error payload with the raised message. -/
theorem errors_structured_witness :
    get_token sampleEnv sampleStore sampleUser none none sampleSignFail =
      (.err "boom", [the_call sampleEnv sampleStore sampleUser none]) :=
  (errors_structured sampleEnv sampleStore sampleUser none none sampleSignFail).2.2.1
    "boom" (by decide) rfl rfl

/-- C4: an absent, empty, or unrecognized `agent_id` is substituted by
`"general"`, resolving to the general profile and its room name, and the
whole operation behaves exactly as if `agent_id` were `"general"` — never an
error on account of the agent identifier. -/
theorem unknown_agent_defaults (env : EnvVars) (store : ConfigStore) (u : UserCtx)
    (sdkImport : Option String)
    (sign : String → String → String → VideoGrants → Except String String)
    (agent_id : Option String)
    (h : agent_id = none ∨ agent_id = some "" ∨
      ∃ s, agent_id = some s ∧ agent_known s = false) :
    resolve_agent agent_id = "general" ∧
    room_name (resolve_agent agent_id) = "voice_chat_general" ∧
    agent_prompt (resolve_agent agent_id) =
      "You are a helpful AI assistant. Answer questions and provide assistance on various topics." ∧
    get_token env store u agent_id sdkImport sign =
      get_token env store u (some "general") sdkImport sign := by
  have hra : resolve_agent agent_id = "general" := by
    rcases h with rfl | rfl | ⟨s, rfl, hs⟩
    · rfl
    · rfl
    · simp [resolve_agent, hs]
  refine ⟨hra, by rw [hra]; rfl, by rw [hra]; rfl, ?_⟩
  have hg : resolve_agent (some "general") = "general" := by decide
  simp only [get_token, the_call, hra, hg]

/-- C4 witness: a concrete unrecognized agent id behaves as `"general"`. -/
theorem unknown_agent_defaults_witness :
    resolve_agent (some "bogus") = "general" ∧
    room_name (resolve_agent (some "bogus")) = "voice_chat_general" ∧
    agent_prompt (resolve_agent (some "bogus")) =
      "You are a helpful AI assistant. Answer questions and provide assistance on various topics." ∧
    get_token sampleEnv sampleStore sampleUser (some "bogus") none sampleSign =
      get_token sampleEnv sampleStore sampleUser (some "general") none sampleSign :=
  unknown_agent_defaults sampleEnv sampleStore sampleUser none sampleSign (some "bogus")
    (Or.inr (Or.inr ⟨"bogus", rfl, by decide⟩))

/-- C5: room assignment is `"voice_chat_" ++ agent` and is injective — two
agent identifiers share a room name exactly when they are equal; in
particular the three known agent ids get pairwise distinct rooms. -/
theorem room_assignment_injective (a b : String) :
    room_name a = "voice_chat_" ++ a ∧
    (room_name a = room_name b ↔ a = b) ∧
    room_name "customer_support" ≠ room_name "accounting" ∧
    room_name "customer_support" ≠ room_name "general" ∧
    room_name "accounting" ≠ room_name "general" := by
  refine ⟨rfl, ⟨?_, fun h => by rw [h]⟩, by decide, by decide, by decide⟩
  obtain ⟨la⟩ := a
  obtain ⟨lb⟩ := b
  intro h
  have hd := congrArg String.data h
  simp only [room_name, String.append] at hd
  have : la = lb := List.append_cancel_left hd
  rw [this]

/-- C6: on success `get_token` returns exactly the five fields — the assigned
room, the token the signing primitive returned, the configured URL with
trailing slashes stripped (hence never ending in a slash), the resolved
agent id, and that agent's prompt — and on the concrete accounting example
the response is exactly as the specification's example states. -/
theorem success_response (env : EnvVars) (store : ConfigStore) (u : UserCtx)
    (agent_id : Option String) (t : String)
    (sign : String → String → String → VideoGrants → Except String String)
    (hp : creds_present env store)
    (hs : run_sign env store u agent_id sign = .ok t) :
    get_token env store u agent_id none sign =
      (.ok (room_name (resolve_agent agent_id)) t
        (pyRstripSlash (resolve_cred env.url store.url))
        (resolve_agent agent_id) (agent_prompt (resolve_agent agent_id)),
       [the_call env store u agent_id]) ∧
    endsWithSlash (pyRstripSlash (resolve_cred env.url store.url)) = false ∧
    get_token sampleEnv sampleStore sampleUser (some "accounting") none sampleSign =
      (.ok "voice_chat_accounting" "jwt" "wss://lk.example.com" "accounting"
        "You are an accounting assistant. Help users with financial questions, accounting principles, and bookkeeping tasks.",
       [the_call sampleEnv sampleStore sampleUser (some "accounting")]) ∧
    ("jwt" : String) ≠ "" := by
  refine ⟨?_, pyRstripSlash_no_trailing _, by decide, by decide⟩
  simp only [run_sign, the_call] at hs
  simp [get_token, hp.1, hp.2.1, hp.2.2, the_call, hs]

/-- C6 witness: the concrete accounting example, via the theorem. -/
theorem success_response_witness :
    get_token sampleEnv sampleStore sampleUser (some "accounting") none sampleSign =
      (.ok (room_name (resolve_agent (some "accounting"))) "jwt"
        (pyRstripSlash (resolve_cred sampleEnv.url sampleStore.url))
        (resolve_agent (some "accounting")) (agent_prompt (resolve_agent (some "accounting"))),
       [the_call sampleEnv sampleStore sampleUser (some "accounting")]) :=
  (success_response sampleEnv sampleStore sampleUser (some "accounting") "jwt" sampleSign
    (by decide) rfl).1

/-- C7: every call `get_token` makes to the signing primitive carries the
grant `{room_join := true, can_publish := true, can_subscribe := true,
room := <assigned room>}` and the resolved identity — no other combination
of permission bits is ever issued. -/
theorem grant_always_full (env : EnvVars) (store : ConfigStore) (u : UserCtx)
    (agent_id : Option String) (sdkImport : Option String)
    (sign : String → String → String → VideoGrants → Except String String) :
    ∀ call ∈ (get_token env store u agent_id sdkImport sign).2,
      call = the_call env store u agent_id ∧
      call.grants = { room_join := true, can_publish := true, can_subscribe := true,
                      room := room_name (resolve_agent agent_id) } ∧
      call.identity = resolve_identity u := by
  intro call hc
  have hcall : call = the_call env store u agent_id := by
    simp only [get_token] at hc
    split at hc
    · simp at hc
    · split at hc
      · simp at hc
      · split at hc <;>
          (simp only [List.mem_singleton] at hc; rw [hc]; rfl)
  refine ⟨hcall, ?_, ?_⟩
  · rw [hcall]; rfl
  · rw [hcall]; rfl

/-- C7 witness: the concrete signing call made for the accounting agent
carries the full grant for the accounting room. -/
theorem grant_always_full_witness :
    the_call sampleEnv sampleStore sampleUser (some "accounting") =
      the_call sampleEnv sampleStore sampleUser (some "accounting") ∧
    (the_call sampleEnv sampleStore sampleUser (some "accounting")).grants =
      { room_join := true, can_publish := true, can_subscribe := true,
        room := room_name (resolve_agent (some "accounting")) } ∧
    (the_call sampleEnv sampleStore sampleUser (some "accounting")).identity =
      resolve_identity sampleUser :=
  grant_always_full sampleEnv sampleStore sampleUser (some "accounting") none sampleSign
    (the_call sampleEnv sampleStore sampleUser (some "accounting")) (by decide)

/-- C8: credential resolution takes the environment value whenever the
environment supplies a (non-empty) value, and falls back to the
configuration store exactly when the variable is unset. -/
theorem env_priority (v store : String) (hv : v ≠ "") :
    resolve_cred (some v) store = v ∧ resolve_cred none store = store := by
  constructor
  · simp [resolve_cred, hv]
  · rfl

/-- C8 witness: a concrete set environment variable wins over the store. -/
theorem env_priority_witness :
    resolve_cred (some "wss://env.example.com") "wss://store.example.com" =
      "wss://env.example.com" ∧
    resolve_cred none "wss://store.example.com" = "wss://store.example.com" :=
  env_priority "wss://env.example.com" "wss://store.example.com" (by decide)

/-- C9: the sequence of signing calls — and hence the identity and grant
claims handed to the signing primitive — is a function of the request inputs
alone: two executions differing only in the signing capability make exactly
the same calls, and whenever token construction is reached the single call
made is `the_call` (fixed identity, fixed grant). -/
theorem signing_inputs_deterministic (env : EnvVars) (store : ConfigStore) (u : UserCtx)
    (agent_id : Option String) (sdkImport : Option String)
    (sign₁ sign₂ : String → String → String → VideoGrants → Except String String) :
    (get_token env store u agent_id sdkImport sign₁).2 =
      (get_token env store u agent_id sdkImport sign₂).2 ∧
    (creds_present env store → sdkImport = none →
      (get_token env store u agent_id sdkImport sign₁).2 = [the_call env store u agent_id]) := by
  constructor
  · simp only [get_token]
    split
    · rfl
    · split
      · rfl
      · split <;> split <;> rfl
  · intro hp him
    subst him
    simp [get_token, hp.1, hp.2.1, hp.2.2, the_call]
    split <;> rfl

/-- C9 witness: two different signing capabilities at concrete inputs make
the identical single signing call. -/
theorem signing_inputs_deterministic_witness :
    (get_token sampleEnv sampleStore sampleUser none none sampleSign).2 =
      (get_token sampleEnv sampleStore sampleUser none none sampleSignFail).2 ∧
    (get_token sampleEnv sampleStore sampleUser none none sampleSign).2 =
      [the_call sampleEnv sampleStore sampleUser none] :=
  ⟨(signing_inputs_deterministic sampleEnv sampleStore sampleUser none none
      sampleSign sampleSignFail).1,
   (signing_inputs_deterministic sampleEnv sampleStore sampleUser none none
      sampleSign sampleSignFail).2 (by decide) rfl⟩

/-- C10: an environment variable set to the empty string is treated as
absent (the store value is used), and a credential resolves non-empty
exactly when the environment supplies a non-empty value or the store does. -/
theorem empty_env_falls_back (env : Option String) (store : String) :
    resolve_cred (some "") store = store ∧
    (resolve_cred env store ≠ "" ↔ (∃ v, env = some v ∧ v ≠ "") ∨ store ≠ "") := by
  refine ⟨rfl, ?_⟩
  match env with
  | none => simp [resolve_cred]
  | some v =>
    by_cases hv : v = ""
    · subst hv
      simp [resolve_cred]
    · simp [resolve_cred, hv]

end VoiceApi
